import Mathlib

/-!
Verification of the token-based authentication gate and ownership-based
authorization policy of the st-portfolio order API.

The development shallowly embeds two source files:

* `src/endpoints/auth.js` — the `authenticateToken` middleware: bearer-token
  extraction, JWT verification, identity re-lookup, role integrity assertion.
* the order route module (`app.get("/order/:orderID")`, `app.post("/order")`,
  `app.put("/order")`, `app.delete("/order/:orderID")`) — the CRUD handlers
  whose authorization decisions are checked here.

MongoDB collections are modelled as Lean lists, `findOne` as `List.find?`,
and the JavaScript `null`/`undefined` distinction as `Option`.  A JavaScript
TypeError raised by a field access on `null` (and caught by the handler's
`try`/`catch`, producing HTTP 400) is modelled with `Except`.
-/

namespace StPortfolio

/-- The payload embedded in a JWT: the identity claim.  The middleware only
ever reads `user.id` from the decoded token. -/
structure Claim where
  id : String
deriving DecidableEq

/-- A persisted user record as read by the gate (`User.findOne({_id: ...})`)
reads `_id` and `role`.  An absent/falsy `role` is modelled as `""`. -/
structure IdentityRecord where
  id : String
  role : String
deriving DecidableEq

/-- The verified principal attached to the request (`req.user`): the claim id
plus the role re-read from the identity store. -/
structure Principal where
  id : String
  role : String
deriving DecidableEq

/-- A stored order: Mongo `_id`, the owning user's id (`user`), and the
business payload (`items`), collapsed to one representative field. -/
structure Order where
  _id : String
  user : String
  items : String
deriving DecidableEq

/-- JavaScript `s.split(' ')` on the underlying character list: splits at every
single space, keeping empty segments (`"a  b" ↦ ["a", "", "b"]`, `"" ↦ [""]`). -/
def splitOnChar (c : Char) : List Char → List (List Char)
  | [] => [[]]
  | a :: rest =>
    match splitOnChar c rest with
    | [] => if a = c then [[], []] else [[a]]
    | h :: t => if a = c then [] :: h :: t else (a :: h) :: t

/-- `s.split(' ')` from JavaScript, as a list of strings. -/
def jsSplitSpace (s : String) : List String :=
  (splitOnChar ' ' s.data).map String.mk

/-- `const token = authHeader && authHeader.split(' ')[1]` followed by the
`token == null` test.  `none` models a null-ish `token` (header absent, or no
second space-separated part).  When the header is the empty string, `&&`
returns the empty string itself, which is *not* `== null` in JavaScript, so
the result is `some ""`. -/
def extractToken (authHeader : Option String) : Option String :=
  match authHeader with
  | none => none
  | some s => if s = "" then some "" else (jsSplitSpace s).get? 1

/-- `jwt.verify(token, secret, cb)`.  The `jsonwebtoken` library rejects an
empty token outright (`jwt must be provided`); the remaining
signature/expiry/format outcome is the abstract parameter `sig` (`none` =
any verifier failure). -/
def jwtVerify (sig : String → Option Claim) (token : String) : Option Claim :=
  if token = "" then none else sig token

/-- `User.findOne({_id: id})` over the identity store. -/
def findUser (users : List IdentityRecord) (id : String) : Option IdentityRecord :=
  users.find? (fun r => r.id = id)

/-- Outcome of the `authenticateToken` middleware. -/
inductive AuthResult where
  | noToken
  | verifyFailed
  | unknownIdentity
  | integrityFault
  | ok (principal : Principal)
deriving DecidableEq

/-- The `authenticateToken` middleware of `src/endpoints/auth.js`:
1. extract the bearer token; null-ish token → 401 (`noToken`);
2. `jwt.verify`; any error → 403 (`verifyFailed`), identity store untouched;
3. `User.findOne({_id: user.id})`; no record → 403 (`unknownIdentity`);
4. `assert(userFound.role)`; falsy role → assertion failure (`integrityFault`);
5. otherwise attach `req.user` (claim id + stored role) and call `next()`. -/
def authenticateToken (sig : String → Option Claim) (users : List IdentityRecord)
    (authHeader : Option String) : AuthResult :=
  match extractToken authHeader with
  | none => .noToken
  | some token =>
    match jwtVerify sig token with
    | none => .verifyFailed
    | some claim =>
      match findUser users claim.id with
      | none => .unknownIdentity
      | some record =>
        if record.role = "" then .integrityFault
        else .ok { id := claim.id, role := record.role }

/-- HTTP status the gate itself sends: 401 for a missing token, 403 for a
verifier failure or unknown identity; `none` when no response is sent by the
gate (assertion failure, or success passing control to the handler). -/
def statusOf : AuthResult → Option Nat
  | .noToken => some 401
  | .verifyFailed => some 403
  | .unknownIdentity => some 403
  | .integrityFault => none
  | .ok _ => none

/-- Whether the gate called `next()`, i.e. the request reaches a resource
handler. -/
def gateAllows : AuthResult → Bool
  | .ok _ => true
  | _ => false

/-- `Order.findOne({_id: orderID})` over the order store. -/
def findOrder (store : List Order) (orderID : String) : Option Order :=
  store.find? (fun o => o._id = orderID)

/-- The JSON body of `PUT /order`: the target `_id` plus the optional fields
being set (`none` = field absent from the body). -/
structure UpdateBody where
  _id : String
  user : Option String
  items : Option String
deriving DecidableEq

/-- The JSON body of `POST /order` (before the handler overwrites `user`). -/
structure CreateBody where
  user : Option String
  items : Option String
deriving DecidableEq

/-- Mongo `$set` semantics of `findByIdAndUpdate(id, req.body, ...)` on one
document: every field present in the body overwrites the stored field. -/
def applyUpdate (o : Order) (b : UpdateBody) : Order :=
  { _id := o._id, user := b.user.getD o.user, items := b.items.getD o.items }

/-- `Order.findByIdAndUpdate(id, req.body, {"new": true})`: the store after
updating the document whose `_id` matches `b._id`. -/
def findByIdAndUpdate (store : List Order) (b : UpdateBody) : List Order :=
  store.map (fun o => if o._id = b._id then applyUpdate o b else o)

/-- `Order.findByIdAndDelete(orderID)`: the store with the matching document
removed. -/
def deleteOrder (store : List Order) (orderID : String) : List Order :=
  store.filter (fun o => o._id ≠ orderID)

/-- HTTP responses produced by the order handlers.  `ok200` carries the JSON
body (`none` models serialising `null`); `created201` the created/updated
order; `badRequest400` is the `catch` branch. -/
inductive Response where
  | ok200 (body : Option Order)
  | created201 (body : Order)
  | forbidden403
  | notFound404
  | badRequest400
deriving DecidableEq

/-- The guard expression shared verbatim by the update and delete handlers:
`req.user.role !== "Admin" && orderFound.user.toString() !== req.user.id`.
`&&` short-circuits on an Admin role; for a non-Admin the field access
`orderFound.user` on a `null` lookup result raises a TypeError, modelled as
`Except.error ()`. -/
def ownerMismatch (p : Principal) (orderFound : Option Order) : Except Unit Bool :=
  if p.role = "Admin" then .ok false
  else
    match orderFound with
    | none => .error ()
    | some o => .ok (o.user ≠ p.id)

/-- `app.get("/order/:orderID")`: look the order up; if found, 403 unless the
caller is Admin or the owner, else 200 with the order; if not found, 404. -/
def getOrderHandler (p : Principal) (store : List Order) (orderID : String) :
    Response :=
  match findOrder store orderID with
  | some orderFound =>
    if p.role ≠ "Admin" ∧ orderFound.user ≠ p.id then .forbidden403
    else .ok200 (some orderFound)
  | none => .notFound404

/-- `app.post("/order")`: build the order from the body (`new Order({...req.body})`,
with `newId` standing for the generated `_id`), then overwrite `user` with the
authenticated caller's id; insert only if that user exists, else 400. -/
def postOrderHandler (p : Principal) (users : List IdentityRecord)
    (store : List Order) (newId : String) (b : CreateBody) :
    Response × List Order :=
  let fromBody : Order := { _id := newId, user := b.user.getD "", items := b.items.getD "" }
  let newOrder : Order := { fromBody with user := p.id }
  if (findUser users p.id).isSome then
    (.created201 newOrder, store ++ [newOrder])
  else
    (.badRequest400, store)

/-- `app.put("/order")`: look up `req.body._id`, evaluate the ownership guard
*before* the existence test (a TypeError on a missing order falls into the
`catch` → 400), then update and answer 201, or 404 when the lookup was null. -/
def putOrderHandler (p : Principal) (store : List Order) (b : UpdateBody) :
    Response × List Order :=
  match ownerMismatch p (findOrder store b._id) with
  | .error _ => (.badRequest400, store)
  | .ok true => (.forbidden403, store)
  | .ok false =>
    match findOrder store b._id with
    | some o => (.created201 (applyUpdate o b), findByIdAndUpdate store b)
    | none => (.notFound404, store)

/-- `app.delete("/order/:orderID")`: evaluate the same ownership guard (again
before any existence test), then `findByIdAndDelete` and answer 200 with the
deleted document — `null` when nothing matched; there is no 404 branch. -/
def deleteOrderHandler (p : Principal) (store : List Order) (orderID : String) :
    Response × List Order :=
  match ownerMismatch p (findOrder store orderID) with
  | .error _ => (.badRequest400, store)
  | .ok true => (.forbidden403, store)
  | .ok false => (.ok200 (findOrder store orderID), deleteOrder store orderID)

/-- The Authorization Policy exactly as the specification words it (§4.3):
ALLOW iff `principal.role == Admin` or `principal.id == resourceOwnerId`. -/
def authorizeSpec (p : Principal) (resourceOwnerId : String) : Bool :=
  p.role = "Admin" || p.id = resourceOwnerId

/-! ## Theorems about the authentication gate -/

/-- C2 (amended): a request with an absent authorization header gets HTTP 401
with no Principal constructed and no identity-store lookup; a request whose
authorization header is the empty string instead yields the empty token, which
the verifier rejects, so the gate answers HTTP 403 — still with no Principal
and no identity-store lookup. -/
theorem absent_header_401_empty_header_403
    (sig : String → Option Claim) (users users2 : List IdentityRecord)
    (authHeader : Option String) :
    (authHeader = none →
      authenticateToken sig users authHeader = .noToken ∧
      statusOf (authenticateToken sig users authHeader) = some 401) ∧
    (authHeader = some "" →
      authenticateToken sig users authHeader = .verifyFailed ∧
      statusOf (authenticateToken sig users authHeader) = some 403) ∧
    ((authHeader = none ∨ authHeader = some "") →
      authenticateToken sig users authHeader = authenticateToken sig users2 authHeader ∧
      ∀ q : Principal, authenticateToken sig users authHeader ≠ .ok q) := by
  refine ⟨fun h => ?_, fun h => ?_, fun h => ?_⟩
  · subst h
    simp [authenticateToken, extractToken, statusOf]
  · subst h
    simp [authenticateToken, extractToken, jwtVerify, statusOf]
  · rcases h with h | h <;> subst h <;>
      simp [authenticateToken, extractToken, jwtVerify]

/-- C2 counterexample: with an authorization header that is present but empty,
the gate answers 403 (`verifyFailed`), not the claimed 401 — the empty-string
token passes the `token == null` test and reaches the verifier.  The verifier
here accepts every token and the identity store holds the user, so the 403 is
caused by the empty header alone. -/
theorem empty_header_403_not_401 :
    authenticateToken (fun _ => some ⟨ "u1"⟩) [⟨ "u1", "User"⟩] (some "")
      = .verifyFailed ∧
    statusOf (authenticateToken (fun _ => some ⟨ "u1"⟩) [⟨ "u1", "User"⟩] (some ""))
      = some 403 := by
  decide

/-- C2 witness: the amended theorem applied at an absent and at an empty
header. -/
theorem absent_header_401_empty_header_403_witness :
    authenticateToken (fun _ => some ⟨ "u1"⟩) [] none = .noToken ∧
    authenticateToken (fun _ => some ⟨ "u1"⟩) [] (some "") = .verifyFailed :=
  ⟨((absent_header_401_empty_header_403 (fun _ => some ⟨ "u1"⟩) [] [] none).1 rfl).1,
   ((absent_header_401_empty_header_403 (fun _ => some ⟨ "u1"⟩) [] [] (some "")).2.1 rfl).1⟩

/-- C3: a credential the token verifier rejects makes the gate answer HTTP
403, the result does not depend on the identity store (verification strictly
precedes the lookup), and no Principal is produced. -/
theorem verifier_rejection_403_no_identity_lookup
    (sig : String → Option Claim) (users : List IdentityRecord)
    (authHeader : Option String) (token : String)
    (ht : extractToken authHeader = some token)
    (hv : jwtVerify sig token = none) :
    authenticateToken sig users authHeader = .verifyFailed ∧
    statusOf (authenticateToken sig users authHeader) = some 403 ∧
    (∀ users2 : List IdentityRecord,
      authenticateToken sig users2 authHeader = .verifyFailed) ∧
    ∀ q : Principal, authenticateToken sig users authHeader ≠ .ok q := by
  have h : ∀ us : List IdentityRecord, authenticateToken sig us authHeader = .verifyFailed := by
    intro us
    simp [authenticateToken, ht, hv]
  exact ⟨h users, by rw [h users]; rfl, h, fun q => by rw [h users]; exact fun hc => by cases hc⟩

/-- C3 witness: a bearer header whose token the verifier rejects. -/
theorem verifier_rejection_403_no_identity_lookup_witness :
    authenticateToken (fun _ => none) [⟨ "u1", "User"⟩] (some "Bearer bad") = .verifyFailed ∧
    statusOf (authenticateToken (fun _ => none) [⟨ "u1", "User"⟩] (some "Bearer bad")) = some 403 ∧
    (∀ users2 : List IdentityRecord,
      authenticateToken (fun _ => none) users2 (some "Bearer bad") = .verifyFailed) ∧
    ∀ q : Principal, authenticateToken (fun _ => none) [⟨ "u1", "User"⟩] (some "Bearer bad") ≠ .ok q :=
  verifier_rejection_403_no_identity_lookup (fun _ => none) [⟨ "u1", "User"⟩]
    (some "Bearer bad") "bad" (by decide) (by decide)

/-- C4: a cryptographically valid credential whose identity id has no record
in the identity store (e.g. the user was deleted after issuance) makes the
gate answer HTTP 403, and the request never reaches a resource handler. -/
theorem deleted_identity_403
    (sig : String → Option Claim) (users : List IdentityRecord)
    (authHeader : Option String) (token : String) (claim : Claim)
    (ht : extractToken authHeader = some token)
    (hv : jwtVerify sig token = some claim)
    (hu : findUser users claim.id = none) :
    authenticateToken sig users authHeader = .unknownIdentity ∧
    statusOf (authenticateToken sig users authHeader) = some 403 ∧
    gateAllows (authenticateToken sig users authHeader) = false ∧
    ∀ q : Principal, authenticateToken sig users authHeader ≠ .ok q := by
  have h : authenticateToken sig users authHeader = .unknownIdentity := by
    simp [authenticateToken, ht, hv, hu]
  refine ⟨h, by rw [h]; rfl, by rw [h]; rfl, fun q hc => ?_⟩
  rw [h] at hc
  cases hc

/-- C4 witness: a token for user `u1` while the store only holds `u2`. -/
theorem deleted_identity_403_witness :
    authenticateToken (fun t => if t = "tok1" then some ⟨ "u1"⟩ else none)
      [⟨ "u2", "User"⟩] (some "Bearer tok1") = .unknownIdentity ∧
    statusOf (authenticateToken (fun t => if t = "tok1" then some ⟨ "u1"⟩ else none)
      [⟨ "u2", "User"⟩] (some "Bearer tok1")) = some 403 ∧
    gateAllows (authenticateToken (fun t => if t = "tok1" then some ⟨ "u1"⟩ else none)
      [⟨ "u2", "User"⟩] (some "Bearer tok1")) = false ∧
    ∀ q : Principal, authenticateToken (fun t => if t = "tok1" then some ⟨ "u1"⟩ else none)
      [⟨ "u2", "User"⟩] (some "Bearer tok1") ≠ .ok q :=
  deleted_identity_403 (fun t => if t = "tok1" then some ⟨ "u1"⟩ else none)
    [⟨ "u2", "User"⟩] (some "Bearer tok1") "tok1" ⟨ "u1"⟩ (by decide) (by decide) (by decide)

/-- C5: a valid credential whose identity record exists but carries an
empty/missing role trips the `assert(userFound.role)` integrity check: the
gate neither attaches a Principal nor continues to a handler, and sends no
normal client response. -/
theorem missing_role_integrity_fault
    (sig : String → Option Claim) (users : List IdentityRecord)
    (authHeader : Option String) (token : String) (claim : Claim)
    (record : IdentityRecord)
    (ht : extractToken authHeader = some token)
    (hv : jwtVerify sig token = some claim)
    (hu : findUser users claim.id = some record)
    (hr : record.role = "") :
    authenticateToken sig users authHeader = .integrityFault ∧
    gateAllows (authenticateToken sig users authHeader) = false ∧
    statusOf (authenticateToken sig users authHeader) = none ∧
    ∀ q : Principal, authenticateToken sig users authHeader ≠ .ok q := by
  have h : authenticateToken sig users authHeader = .integrityFault := by
    simp [authenticateToken, ht, hv, hu, hr]
  refine ⟨h, by rw [h]; rfl, by rw [h]; rfl, fun q hc => ?_⟩
  rw [h] at hc
  cases hc

/-- C5 witness: a stored record for `u1` with an empty role. -/
theorem missing_role_integrity_fault_witness :
    authenticateToken (fun t => if t = "tok1" then some ⟨ "u1"⟩ else none)
      [⟨ "u1", ""⟩] (some "Bearer tok1") = .integrityFault ∧
    gateAllows (authenticateToken (fun t => if t = "tok1" then some ⟨ "u1"⟩ else none)
      [⟨ "u1", ""⟩] (some "Bearer tok1")) = false ∧
    statusOf (authenticateToken (fun t => if t = "tok1" then some ⟨ "u1"⟩ else none)
      [⟨ "u1", ""⟩] (some "Bearer tok1")) = none ∧
    ∀ q : Principal, authenticateToken (fun t => if t = "tok1" then some ⟨ "u1"⟩ else none)
      [⟨ "u1", ""⟩] (some "Bearer tok1") ≠ .ok q :=
  missing_role_integrity_fault (fun t => if t = "tok1" then some ⟨ "u1"⟩ else none)
    [⟨ "u1", ""⟩] (some "Bearer tok1") "tok1" ⟨ "u1"⟩ ⟨ "u1", ""⟩
    (by decide) (by decide) (by decide) (by decide)

/-! ## Theorems about the order handlers -/

/-- C1: when the target order exists, the read, update, and delete handlers
all apply the single ALLOW-iff-Admin-or-owner rule: each succeeds when
`authorizeSpec` allows and answers HTTP 403 when it denies. -/
theorem owner_or_admin_rule_uniform
    (p : Principal) (store : List Order) (b : UpdateBody) (o : Order)
    (hfind : findOrder store b._id = some o) :
    if authorizeSpec p o.user then
      getOrderHandler p store b._id = .ok200 (some o) ∧
      (putOrderHandler p store b).1 = .created201 (applyUpdate o b) ∧
      (deleteOrderHandler p store b._id).1 = .ok200 (some o)
    else
      getOrderHandler p store b._id = .forbidden403 ∧
      (putOrderHandler p store b).1 = .forbidden403 ∧
      (deleteOrderHandler p store b._id).1 = .forbidden403 := by
  by_cases hA : p.role = "Admin"
  · simp [authorizeSpec, hA, getOrderHandler, putOrderHandler, deleteOrderHandler,
      ownerMismatch, hfind]
  · by_cases hO : o.user = p.id
    · simp [authorizeSpec, hA, hO, getOrderHandler, putOrderHandler,
        deleteOrderHandler, ownerMismatch, hfind]
    · have hO2 : ¬p.id = o.user := fun hx => hO hx.symm
      simp [authorizeSpec, hA, hO, hO2, getOrderHandler, putOrderHandler,
        deleteOrderHandler, ownerMismatch, hfind]

/-- C1 witness: owner `u1` (role `User`) acting on their own order `o1`. -/
theorem owner_or_admin_rule_uniform_witness :
    if authorizeSpec ⟨ "u1", "User"⟩ "u1" then
      getOrderHandler ⟨ "u1", "User"⟩ [⟨ "o1", "u1", "pizza"⟩] "o1"
        = Response.ok200 (some ⟨ "o1", "u1", "pizza"⟩) ∧
      (putOrderHandler ⟨ "u1", "User"⟩ [⟨ "o1", "u1", "pizza"⟩] ⟨ "o1", none, some "pasta"⟩).1
        = Response.created201 ⟨ "o1", "u1", "pasta"⟩ ∧
      (deleteOrderHandler ⟨ "u1", "User"⟩ [⟨ "o1", "u1", "pizza"⟩] "o1").1
        = Response.ok200 (some ⟨ "o1", "u1", "pizza"⟩)
    else
      getOrderHandler ⟨ "u1", "User"⟩ [⟨ "o1", "u1", "pizza"⟩] "o1" = Response.forbidden403 ∧
      (putOrderHandler ⟨ "u1", "User"⟩ [⟨ "o1", "u1", "pizza"⟩] ⟨ "o1", none, some "pasta"⟩).1
        = Response.forbidden403 ∧
      (deleteOrderHandler ⟨ "u1", "User"⟩ [⟨ "o1", "u1", "pizza"⟩] "o1").1
        = Response.forbidden403 :=
  owner_or_admin_rule_uniform ⟨ "u1", "User"⟩ [⟨ "o1", "u1", "pizza"⟩]
    ⟨ "o1", none, some "pasta"⟩ ⟨ "o1", "u1", "pizza"⟩ (by decide)

/-- C6 counterexample: the owner `u1` updates their order `o1` with a body
that carries `user: "u2"`; the update succeeds and afterwards the stored
order's owner is `u2` — ownership is *not* immutable after creation. -/
theorem update_with_user_field_transfers_ownership :
    findOrder [(⟨ "o1", "u1", "pizza"⟩ : Order)] "o1" = some ⟨ "o1", "u1", "pizza"⟩ ∧
    (putOrderHandler ⟨ "u1", "User"⟩ [⟨ "o1", "u1", "pizza"⟩] ⟨ "o1", some "u2", none⟩).1
      = Response.created201 ⟨ "o1", "u2", "pizza"⟩ ∧
    findOrder (putOrderHandler ⟨ "u1", "User"⟩ [⟨ "o1", "u1", "pizza"⟩]
      ⟨ "o1", some "u2", none⟩).2 "o1" = some ⟨ "o1", "u2", "pizza"⟩ ∧
    ("u2" : String) ≠ "u1" := by
  decide

/-- C6 (amended): ownership is set at creation and no operation other than an
update whose body contains a `user` field changes it — an update whose body
omits `user` preserves every order's owner, and deletion never rewrites an
order. -/
theorem owner_unchanged_without_user_field
    (p : Principal) (store : List Order) (b : UpdateBody) (orderID : String)
    (hb : b.user = none) :
    ((putOrderHandler p store b).2).map (fun o => (o._id, o.user))
      = store.map (fun o => (o._id, o.user)) ∧
    ∀ o ∈ (deleteOrderHandler p store orderID).2, o ∈ store := by
  have hup : (findByIdAndUpdate store b).map (fun o => (o._id, o.user))
      = store.map (fun o => (o._id, o.user)) := by
    unfold findByIdAndUpdate
    rw [List.map_map]
    apply List.map_congr_left
    intro a _
    by_cases h : a._id = b._id <;> simp [h, applyUpdate, hb]
  constructor
  · unfold putOrderHandler
    cases h : ownerMismatch p (findOrder store b._id) with
    | error e => simp
    | ok mismatch =>
      cases mismatch
      · cases h2 : findOrder store b._id with
        | none => simp
        | some o => simpa using hup
      · simp
  · intro o ho
    unfold deleteOrderHandler at ho
    cases h : ownerMismatch p (findOrder store orderID) with
    | error e =>
      rw [h] at ho
      exact ho
    | ok mismatch =>
      rw [h] at ho
      cases mismatch
      · exact List.mem_of_mem_filter ho
      · exact ho

/-- C6 amendment witness: an update of `o1` whose body has no `user` field
leaves the owner `u1` in place. -/
theorem owner_unchanged_without_user_field_witness :
    ((putOrderHandler ⟨ "u1", "User"⟩ [⟨ "o1", "u1", "pizza"⟩] ⟨ "o1", none, some "pasta"⟩).2).map
        (fun o => (o._id, o.user))
      = [(⟨ "o1", "u1", "pizza"⟩ : Order)].map (fun o => (o._id, o.user)) ∧
    ∀ o ∈ (deleteOrderHandler ⟨ "u1", "User"⟩ [(⟨ "o1", "u1", "pizza"⟩ : Order)] "o9").2,
      o ∈ [(⟨ "o1", "u1", "pizza"⟩ : Order)] :=
  owner_unchanged_without_user_field ⟨ "u1", "User"⟩ [⟨ "o1", "u1", "pizza"⟩]
    ⟨ "o1", none, some "pasta"⟩ "o9" rfl

/-- C7: whenever order creation answers 201, the created order's `user` field
is the authenticated caller's id — whatever `user` value the request body
carried — and that order is in the resulting store. -/
theorem created_order_owned_by_caller
    (p : Principal) (users : List IdentityRecord) (store : List Order)
    (newId : String) (b : CreateBody) (o : Order)
    (hc : (postOrderHandler p users store newId b).1 = .created201 o) :
    o.user = p.id ∧ o ∈ (postOrderHandler p users store newId b).2 := by
  unfold postOrderHandler at hc ⊢
  by_cases h : (findUser users p.id).isSome
  · simp only [h, if_true] at hc ⊢
    have ho : o = { _id := newId, user := p.id, items := b.items.getD "" } := by
      cases hc
      rfl
    subst ho
    simp
  · simp only [h, if_false, Bool.false_eq_true] at hc
    cases hc

/-- C7 witness: `u1` posts a body claiming `user: "u2"`; the stored order is
owned by `u1`. -/
theorem created_order_owned_by_caller_witness :
    (⟨ "o9", "u1", "pasta"⟩ : Order).user = "u1" ∧
    (⟨ "o9", "u1", "pasta"⟩ : Order) ∈
      (postOrderHandler ⟨ "u1", "User"⟩ [⟨ "u1", "User"⟩] [] "o9"
        ⟨ some "u2", some "pasta"⟩).2 :=
  created_order_owned_by_caller ⟨ "u1", "User"⟩ [⟨ "u1", "User"⟩] [] "o9"
    ⟨ some "u2", some "pasta"⟩ ⟨ "o9", "u1", "pasta"⟩ (by decide)

/-- C8: a read of an order id with no stored order answers HTTP 404 for every
principal — the response does not depend on the principal at all, so no
ALLOW/DENY decision is taken and 403 is impossible. -/
theorem read_missing_order_404
    (p : Principal) (store : List Order) (orderID : String)
    (hfind : findOrder store orderID = none) :
    getOrderHandler p store orderID = .notFound404 ∧
    (∀ q : Principal, getOrderHandler q store orderID = .notFound404) ∧
    getOrderHandler p store orderID ≠ .forbidden403 := by
  have h : ∀ q : Principal, getOrderHandler q store orderID = .notFound404 := by
    intro q
    simp [getOrderHandler, hfind]
  exact ⟨h p, h, by rw [h p]; exact fun hc => by cases hc⟩

/-- C8 witness: reading the absent `o9` as a plain user yields 404. -/
theorem read_missing_order_404_witness :
    getOrderHandler ⟨ "u1", "User"⟩ [⟨ "o1", "u1", "pizza"⟩] "o9" = .notFound404 ∧
    (∀ q : Principal, getOrderHandler q [(⟨ "o1", "u1", "pizza"⟩ : Order)] "o9" = .notFound404) ∧
    getOrderHandler ⟨ "u1", "User"⟩ [⟨ "o1", "u1", "pizza"⟩] "o9" ≠ .forbidden403 :=
  read_missing_order_404 ⟨ "u1", "User"⟩ [⟨ "o1", "u1", "pizza"⟩] "o9" (by decide)

/-- C9: when the target order does not exist, the update and delete handlers
evaluate the ownership guard against the null lookup result before any
existence test; for a non-Admin principal the `orderFound.user` field access
faults (`ownerMismatch` errors), so both handlers fall into the catch branch
(HTTP 400) instead of answering 404. -/
theorem mutate_missing_order_faults_not_404
    (p : Principal) (store : List Order) (b : UpdateBody) (orderID : String)
    (hrole : p.role ≠ "Admin")
    (hputFind : findOrder store b._id = none)
    (hdelFind : findOrder store orderID = none) :
    ownerMismatch p none = .error () ∧
    (putOrderHandler p store b).1 = .badRequest400 ∧
    (deleteOrderHandler p store orderID).1 = .badRequest400 ∧
    (putOrderHandler p store b).1 ≠ .notFound404 ∧
    (deleteOrderHandler p store orderID).1 ≠ .notFound404 := by
  have hm : ownerMismatch p none = .error () := by
    simp [ownerMismatch, hrole]
  have hput : (putOrderHandler p store b).1 = .badRequest400 := by
    simp [putOrderHandler, hputFind, hm]
  have hdel : (deleteOrderHandler p store orderID).1 = .badRequest400 := by
    simp [deleteOrderHandler, hdelFind, hm]
  refine ⟨hm, hput, hdel, ?_, ?_⟩
  · rw [hput]
    exact fun hc => by cases hc
  · rw [hdel]
    exact fun hc => by cases hc

/-- C9 witness: user `u1` updating/deleting the absent order `o9`. -/
theorem mutate_missing_order_faults_not_404_witness :
    ownerMismatch ⟨ "u1", "User"⟩ none = .error () ∧
    (putOrderHandler ⟨ "u1", "User"⟩ [] ⟨ "o9", none, none⟩).1 = .badRequest400 ∧
    (deleteOrderHandler ⟨ "u1", "User"⟩ [] "o9").1 = .badRequest400 ∧
    (putOrderHandler ⟨ "u1", "User"⟩ [] ⟨ "o9", none, none⟩).1 ≠ .notFound404 ∧
    (deleteOrderHandler ⟨ "u1", "User"⟩ [] "o9").1 ≠ .notFound404 :=
  mutate_missing_order_faults_not_404 ⟨ "u1", "User"⟩ [] ⟨ "o9", none, none⟩ "o9"
    (by decide) (by decide) (by decide)

/-- C10: an Admin deleting a non-existent order id gets HTTP 200 with a null
body (the `findByIdAndDelete` result), and the delete handler can never
answer 404 to an Admin. -/
theorem admin_delete_missing_order_200_null
    (p : Principal) (store : List Order) (orderID : String)
    (hrole : p.role = "Admin") :
    (findOrder store orderID = none →
      (deleteOrderHandler p store orderID).1 = .ok200 none) ∧
    (deleteOrderHandler p store orderID).1 ≠ .notFound404 := by
  have h : (deleteOrderHandler p store orderID).1 = .ok200 (findOrder store orderID) := by
    simp [deleteOrderHandler, ownerMismatch, hrole]
  constructor
  · intro hfind
    rw [h, hfind]
  · rw [h]
    exact fun hc => by cases hc

/-- C10 witness: admin `a1` deletes the absent `o9` and gets `200 null`. -/
theorem admin_delete_missing_order_200_null_witness :
    (deleteOrderHandler ⟨ "a1", "Admin"⟩ [⟨ "o1", "u1", "pizza"⟩] "o9").1 = .ok200 none ∧
    (deleteOrderHandler ⟨ "a1", "Admin"⟩ [⟨ "o1", "u1", "pizza"⟩] "o9").1 ≠ .notFound404 :=
  ⟨(admin_delete_missing_order_200_null ⟨ "a1", "Admin"⟩ [⟨ "o1", "u1", "pizza"⟩] "o9" rfl).1 (by decide),
   (admin_delete_missing_order_200_null ⟨ "a1", "Admin"⟩ [⟨ "o1", "u1", "pizza"⟩] "o9" rfl).2⟩

end StPortfolio
